import Mathlib

/-!
Verification of the fx-data-downloader ingestion pipeline.

Shallow embedding of `src/downloader.py`, `src/models.py` and the pieces of
`src/database.py` the claims touch.  Python `datetime.date` values are
represented by their proleptic-Gregorian ordinal (the value of
`date.toordinal()`); calendar conversions use the standard civil-calendar
arithmetic, which agrees with CPython's `datetime` module.  Python's floor
division `//` and modulo `%` coincide with Lean's `Int` `/` and `%`
(Euclidean) whenever the divisor is positive, which is the only case the
source exercises (divisors 7, 146097, ...).
-/

/-- Days since 1970-01-01 of the civil date `(y, m, d)` (proleptic Gregorian).
Standard civil-from-days arithmetic, matching CPython's calendar. -/
def days_from_civil (y0 m d : Int) : Int :=
  let y := if m ≤ 2 then y0 - 1 else y0
  let era := y / 400
  let yoe := y - era * 400
  let mp := if m > 2 then m - 3 else m + 9
  let doy := (153 * mp + 2) / 5 + d - 1
  let doe := yoe * 365 + yoe / 4 - yoe / 100 + doy
  era * 146097 + doe - 719468

/-- Inverse of `days_from_civil`: civil `(y, m, d)` of a day count since
1970-01-01. -/
def civil_from_days (z0 : Int) : Int × Int × Int :=
  let z := z0 + 719468
  let era := z / 146097
  let doe := z - era * 146097
  let yoe := (doe - doe / 1460 + doe / 36524 - doe / 146096) / 365
  let y := yoe + era * 400
  let doy := doe - (365 * yoe + yoe / 4 - yoe / 100)
  let mp := (5 * doy + 2) / 153
  let d := doy - (153 * mp + 2) / 5 + 1
  let m := mp + (if mp < 10 then 3 else -9)
  (y + (if m ≤ 2 then 1 else 0), m, d)

/-- A Python `datetime.date`, represented by its `toordinal()` value
(ordinal 1 is 0001-01-01, ordinal 719163 is 1970-01-01). -/
structure Date where
  ordinal : Int
deriving DecidableEq, Repr

/-- `datetime.date(y, m, d)`. -/
def mkDate (y m d : Int) : Date :=
  ⟨days_from_civil y m d + 719163⟩

/-- `d + datetime.timedelta(days=n)`. -/
def Date.addDays (d : Date) (n : Int) : Date :=
  ⟨d.ordinal + n⟩

/-- Civil `(year, month, day)` of a date. -/
def Date.civil (d : Date) : Int × Int × Int :=
  civil_from_days (d.ordinal - 719163)

/-- `d.replace(day=1)`. -/
def Date.replaceDay1 (d : Date) : Date :=
  let c := d.civil
  mkDate c.1 c.2.1 1

/-- CPython `datetime._isoweek1monday(year)`: the ordinal of the Monday
starting ISO week 1 of `year` (the week containing the first Thursday). -/
def isoweek1monday (year : Int) : Int :=
  let firstday := (mkDate year 1 1).ordinal
  let firstweekday := (firstday + 6) % 7
  let week1monday := firstday - firstweekday
  if firstweekday > 3 then week1monday + 7 else week1monday

/-- CPython `date.isocalendar()`: `(ISO year, ISO week, ISO weekday)`. -/
def Date.isocalendar (d : Date) : Int × Int × Int :=
  let year := d.civil.1
  let today := d.ordinal
  let week := (today - isoweek1monday year) / 7
  let day := (today - isoweek1monday year) % 7
  if week < 0 then
    let year1 := year - 1
    let week1 := (today - isoweek1monday year1) / 7
    let day1 := (today - isoweek1monday year1) % 7
    (year1, week1 + 1, day1 + 1)
  else if week ≥ 52 ∧ today ≥ isoweek1monday (year + 1) then
    (year + 1, 1, day + 1)
  else
    (year, week + 1, day + 1)

/-- `weeks_between_dates` from `src/downloader.py`:
`delta = (d1 - d0).days; weeks = delta // 7; if delta % 7 != 0: weeks += 1`.
Python floor `//` and `%` agree with Lean's Euclidean `/` and `%` on the
positive divisor 7. -/
def weeks_between_dates (d0 d1 : Date) : Int :=
  let delta := d1.ordinal - d0.ordinal
  let weeks := delta / 7
  if delta % 7 ≠ 0 then weeks + 1 else weeks

example : (mkDate 1970 1 1).ordinal = 719163 := by decide
example : (mkDate 1 1 1).ordinal = 1 := by decide
example : (mkDate 2023 5 14).ordinal - (mkDate 2023 5 1).ordinal = 13 := by decide
example : (mkDate 2023 6 1).ordinal - (mkDate 2023 5 1).ordinal = 31 := by decide
example : (mkDate 2023 5 15).civil = (2023, 5, 15) := by decide
example : (-7 : Int) / 2 = -4 := by decide
example : (-7 : Int) % 2 = 1 := by decide
example : (mkDate 2023 5 1).isocalendar = (2023, 18, 1) := by decide
example : (mkDate 2019 1 1).isocalendar = (2019, 1, 2) := by decide
example : (mkDate 2021 1 1).isocalendar = (2020, 53, 5) := by decide
example : (mkDate 2025 12 29).isocalendar = (2026, 1, 1) := by decide
example : weeks_between_dates (mkDate 2023 5 1) (mkDate 2023 5 31) = 5 := by decide
example : weeks_between_dates (mkDate 2020 2 25) (mkDate 2020 3 10) = 2 := by decide

/-- Python strings are modelled as lists of characters so that every string
operation the source uses is structurally recursive and kernel-evaluable. -/
abbrev Str := List Char

/-- Python `s.split(sep)` for a one-character separator: does not collapse
consecutive separators and keeps empty pieces, e.g.
`"a//b".split("/") == ["a", "", "b"]` and `"".split("/") == [""]`. -/
def splitOnChar (c : Char) : Str → List Str
  | [] => [[]]
  | x :: xs =>
    let r := splitOnChar c xs
    if x = c then [] :: r
    else
      match r with
      | [] => [[x]]
      | y :: ys => (x :: y) :: ys

/-- Decimal digits of a natural number, `str(n)` in Python for `n >= 0`. -/
def natToStr (n : Nat) : Str := Nat.toDigits 10 n

/-- Python `str(i)` for an integer. -/
def intToStr (i : Int) : Str :=
  if i < 0 then '-' :: natToStr i.natAbs else natToStr i.natAbs

/-- All-decimal-digit string to its value; `none` when empty or not all
digits (the shape `int()` and strptime's field regexes accept). -/
def digitsToNat? (s : Str) : Option Nat :=
  if s ≠ [] ∧ s.all Char.isDigit then
    some (s.foldl (fun a c => a * 10 + (c.toNat - 48)) 0)
  else none

/-- A Python `datetime.datetime` as produced by `datetime.strptime`. -/
structure PyDateTime where
  year : Nat
  month : Nat
  day : Nat
  hour : Nat
  minute : Nat
  second : Nat
  microsecond : Nat
deriving DecidableEq, Repr

/-- `datetime.date()` of a `datetime.datetime`. -/
def PyDateTime.dateOf (t : PyDateTime) : Date :=
  mkDate t.year t.month t.day

def isLeapYear (y : Nat) : Bool :=
  y % 4 == 0 && (y % 100 != 0 || y % 400 == 0)

def daysInMonth (y m : Nat) : Nat :=
  if m = 2 then (if isLeapYear y then 29 else 28)
  else if m = 4 ∨ m = 6 ∨ m = 9 ∨ m = 11 then 30
  else 31

/-- Parse a strptime numeric field: 1 to `maxLen` decimal digits. -/
def parseField (s : Str) (maxLen : Nat) : Option Nat :=
  if s.length ≤ maxLen then digitsToNat? s else none

/-- The `%Y` field of CPython's `_strptime`: its regex is `\d\d\d\d` —
exactly four decimal digits, no more and no fewer. -/
def parseYear (s : Str) : Option Nat :=
  if s.length = 4 then digitsToNat? s else none

/-- The characters `\s` matches in an ASCII string under CPython's `re`:
space, tab, newline, carriage return, vertical tab, form feed.  (This model
covers ASCII text — the archives are ASCII CSV; non-ASCII Unicode
whitespace and digits are outside its scope, and the theorem that
quantifies over row contents restricts itself to ASCII rows.) -/
def isSpaceChar (c : Char) : Bool :=
  c = ' ' ∨ c = '\t' ∨ c = '\n' ∨ c = '\r' ∨ c = '\x0b' ∨ c = '\x0c'

/-- How the literal space of the format matches: CPython's `TimeRE.pattern`
replaces every whitespace run in the format by `\s+`, so the data must read
`datePart ++ ws ++ timePart` with `ws` a nonempty run of whitespace and no
whitespace anywhere else (no leading or trailing whitespace — the regex is
anchored at the start, and `_strptime` raises unless the match consumes the
whole string).  Returns the two parts, or `none` when the data has no such
shape. -/
def splitFormatWs (s : Str) : Option (Str × Str) :=
  let dp := s.takeWhile (fun c => !isSpaceChar c)
  let rest := s.dropWhile (fun c => !isSpaceChar c)
  let ws := rest.takeWhile isSpaceChar
  let tp := rest.dropWhile isSpaceChar
  if dp ≠ [] ∧ ws ≠ [] ∧ tp ≠ [] ∧ tp.all (fun c => !isSpaceChar c) then
    some (dp, tp)
  else none

/-- The two timestamp formats tried by `download_and_process_gz`:
`"%m/%d/%Y %H:%M:%S.%f"` and `"%m-%d-%Y %H:%M:%S.%f"`; they differ only in
the date-field separator. -/
inductive TsFmt where
  | slashFmt
  | dashFmt
deriving DecidableEq, Repr

def TsFmt.sep : TsFmt → Char
  | .slashFmt => '/'
  | .dashFmt => '-'

/-- `datetime.datetime.strptime(s, fmt)` for the two formats above, as an
`Option`: `none` models the `ValueError` CPython raises when the string does
not match the format or encodes an invalid calendar value.  Mirrors
CPython's `_strptime` on ASCII text: the format's space compiles to `\s+`
(`splitFormatWs`); `%m`, `%d`, `%H`, `%M`, `%S` accept 1-2 digits, `%Y`
exactly 4 digits (`\d\d\d\d`), `%f` 1-6 digits right-padded to
microseconds; the regex must consume the whole string; and the matched
values must form a valid `datetime` (month/day vs calendar, hour ≤ 23,
minute ≤ 59, second ≤ 59 — `_strptime`'s regex admits leap seconds 60-61
but the `datetime` constructor then raises, and `%Y` admits `0000` but
`datetime` requires year ≥ 1, so the net accept-set is as checked here). -/
def strptime (s : Str) (fmt : TsFmt) : Option PyDateTime :=
  match splitFormatWs s with
  | some (datePart, timePart) =>
    match splitOnChar fmt.sep datePart, splitOnChar ':' timePart with
    | [ms, ds, ys], [hs, mins, secPart] =>
      match splitOnChar '.' secPart with
      | [ss, fs] =>
        match parseField ms 2, parseField ds 2, parseYear ys with
        | some m, some d, some y =>
          match parseField hs 2, parseField mins 2, parseField ss 2,
              parseField fs 6 with
          | some h, some mi, some se, some f =>
            if 1 ≤ y ∧ 1 ≤ m ∧ m ≤ 12 ∧ 1 ≤ d ∧ d ≤ daysInMonth y m ∧
                h ≤ 23 ∧ mi ≤ 59 ∧ se ≤ 59 then
              some ⟨y, m, d, h, mi, se, f * 10 ^ (6 - fs.length)⟩
            else none
          | _, _, _, _ => none
        | _, _, _ => none
      | _ => none
    | _, _ => none
  | none => none

/-- `datetime_fmts = ["%m/%d/%Y %H:%M:%S.%f", "%m-%d-%Y %H:%M:%S.%f"]`. -/
def datetime_fmts : List TsFmt := [.slashFmt, .dashFmt]

/-- The inner loop of `download_and_process_gz`:
```
for fmt in datetime_fmts:
    try:
        dt = datetime.datetime.strptime(row[0], fmt)
    except ValueError:
        pass
```
`dt?` is the value of the local variable `dt` before the loop (`none` when it
has never been assigned); a successful parse overwrites it, a `ValueError`
leaves it unchanged. -/
def tryFormats (dt? : Option PyDateTime) (s : Str) : Option PyDateTime :=
  datetime_fmts.foldl
    (fun acc fmt =>
      match strptime s fmt with
      | some v => some v
      | none => acc)
    dt?

example : strptime ("05/01/2023 10:20:30.123".data) .slashFmt =
    some ⟨2023, 5, 1, 10, 20, 30, 123000⟩ := by decide
example : strptime ("05/01/2023 10:20:30.123".data) .dashFmt = none := by decide
example : strptime ("05-01-2023 10:20:30.123456".data) .dashFmt =
    some ⟨2023, 5, 1, 10, 20, 30, 123456⟩ := by decide
example : strptime ("02/30/2023 10:20:30.1".data) .slashFmt = none := by decide
example : strptime ("garbage".data) .slashFmt = none := by decide
example : tryFormats none ("05-01-2023 10:20:30.5".data) =
    some ⟨2023, 5, 1, 10, 20, 30, 500000⟩ := by decide
example : tryFormats (some ⟨2023, 1, 1, 0, 0, 0, 0⟩) ("nonsense ts".data) =
    some ⟨2023, 1, 1, 0, 0, 0, 0⟩ := by decide
example : intToStr 2023 = "2023".data := by decide
example : strptime ("05/01/23 10:20:30.1".data) .slashFmt = none := by decide
example : strptime ("05/01/02023 10:20:30.1".data) .slashFmt = none := by
  decide
example : strptime ("5/1/2023 0:0:0.1".data) .slashFmt =
    some ⟨2023, 5, 1, 0, 0, 0, 100000⟩ := by decide
example : strptime ("05/01/2023  10:20:30.1".data) .slashFmt =
    some ⟨2023, 5, 1, 10, 20, 30, 100000⟩ := by decide
example : strptime ("05/01/2023\t10:20:30.1".data) .slashFmt =
    some ⟨2023, 5, 1, 10, 20, 30, 100000⟩ := by decide
example : strptime (" 05/01/2023 10:20:30.1".data) .slashFmt = none := by
  decide
example : strptime ("05/01/2023 10:20:30.1 ".data) .slashFmt = none := by
  decide
example : strptime ("05/01/2023 10:20: 30.1".data) .slashFmt = none := by
  decide
example : strptime ("05/01/2023 \t 10:20:30.1".data) .slashFmt =
    some ⟨2023, 5, 1, 10, 20, 30, 100000⟩ := by decide
example : strptime ("05/01/2023\n10:20:30.1".data) .slashFmt =
    some ⟨2023, 5, 1, 10, 20, 30, 100000⟩ := by decide

/-- Row of the `fx_tick` table (`src/models.py`): `bid` and `ask` are
`String(50)` columns, stored exactly as the raw CSV fields. -/
structure FxTick where
  dt : PyDateTime
  bid : Str
  ask : Str
  ticket : Str
deriving DecidableEq, Repr

/-- Row of the `instruments` table (`src/models.py`). -/
structure Instrument where
  ticket : Str
  has_ticks : Bool
  has_candles : Bool
deriving DecidableEq, Repr

/-- Sort key realising `ORDER BY fx_tick.dt DESC LIMIT 1`: lexicographic
packing of the datetime fields. -/
def PyDateTime.key (t : PyDateTime) : Nat :=
  ((((t.year * 13 + t.month) * 32 + t.day) * 24 + t.hour) * 60 + t.minute)
      * 60 * 1000000 + t.second * 1000000 + t.microsecond

/-- `FxTick.get_latest` (`src/models.py`): the stored tick of `ticket` with
the greatest `dt`, or `None` when the instrument has no ticks.  The database
contents are passed in as the list `ticks`.  Note the static return type:
an `FxTick` ORM row or `None` — never a `datetime.datetime`. -/
def FxTick.get_latest (ticks : List FxTick) (ticket : Str) : Option FxTick :=
  (ticks.filter (fun t => t.ticket = ticket)).foldl
    (fun acc t =>
      match acc with
      | none => some t
      | some b => if b.dt.key < t.dt.key then some t else some b)
    none

/-- `isinstance(x, datetime.datetime)` applied to a value `x` that
`FxTick.get_latest` returned.  `FxTick` subclasses the SQLAlchemy
`DeclarativeBase`, not `datetime.datetime`, and `None` is not a `datetime`
either, so the check is `False` for every possible return value. -/
def isinstance_datetime (x : Option FxTick) : Bool :=
  match x with
  | none => false
  | some _ => false

/-- `Instrument.get` (`src/models.py`): all instruments when `tickets` is
`None`, else those whose ticket is in the upper-cased request list. -/
def Instrument.get (db : List Instrument) (tickets : Option (List Str)) :
    List Instrument :=
  match tickets with
  | none => db
  | some ts =>
    let up := ts.map (fun s => s.map Char.toUpper)
    db.filter (fun i => up.contains i.ticket)

/-- `response.content` as seen through `gzip.open(BytesIO(...), "rt")`:
either a valid archive decoding to text lines, or data whose decompression
raises `gzip.BadGzipFile`. -/
inductive GzPayload where
  | valid (lines : List Str)
  | badGzip
deriving DecidableEq, Repr

/-- What `requests.get(url_data, stream=True)` followed by
`raise_for_status()` can produce: a 2xx response with a payload body, or a
`requests.exceptions.RequestException` (connection failure, timeout, or the
`HTTPError` that `raise_for_status` raises on a non-2xx status). -/
inductive HttpResponse where
  | ok (payload : GzPayload)
  | errStatus
  | errConn
  | errTimeout
deriving DecidableEq, Repr

/-- State of the row loop of `download_and_process_gz`: `dt?` is the local
variable `dt` (`none` while unassigned), `rows`/`count` the pending batch,
`commits` the batches durably committed so far, in order. -/
structure LoopState where
  dt? : Option PyDateTime
  rows : List FxTick
  count : Nat
  commits : List (List FxTick)
deriving DecidableEq, Repr

def LoopState.init : LoopState := ⟨none, [], 0, []⟩

/-- The `try`-block body run for one truthy CSV row (lines 78-99 of
`src/downloader.py`).  The format loop updates `dt` (or leaves it as-is when
every format raises `ValueError`); `FxTick(dt=dt, bid=row[1], ask=row[2])`
evaluates `dt` first — a `NameError` (modelled as `.error`, carrying the
batches already committed) if `dt` was never assigned — then `row[1]` and
`row[2]`, whose `IndexError` is caught by `except (ValueError, IndexError)`
and only skips the row. -/
def rowTry (ticket : Str) (st : LoopState) (row : List Str) :
    Except (List (List FxTick)) LoopState :=
  if row = [] then .ok st
  else
    let dtN := tryFormats st.dt? (row.headD [])
    match dtN with
    | none => .error st.commits
    | some d =>
      match row.get? 1 with
      | none => .ok { st with dt? := some d }
      | some bid =>
        match row.get? 2 with
        | none => .ok { st with dt? := some d }
        | some ask =>
          .ok { st with
                dt? := some d
                rows := st.rows ++ [⟨d, bid, ask, ticket⟩]
                count := st.count + 1 }

/-- The per-row batch check (lines 101-105), executed for every row, truthy
or not: `if count % batch_size == 0: session.add_all(rows); session.commit();
rows = []`. -/
def batchCheck (batch_size : Nat) (st : LoopState) : LoopState :=
  if st.count % batch_size = 0 then
    { st with commits := st.commits ++ [st.rows], rows := [] }
  else st

/-- One iteration of `for row in reader`. -/
def processRow (ticket : Str) (batch_size : Nat) (st : LoopState)
    (row : List Str) : Except (List (List FxTick)) LoopState :=
  (rowTry ticket st row).map (batchCheck batch_size)

/-- The whole `for row in reader` loop. -/
def runRows (ticket : Str) (batch_size : Nat) :
    LoopState → List (List Str) → Except (List (List FxTick)) LoopState
  | st, [] => .ok st
  | st, row :: rest =>
    match processRow ticket batch_size st row with
    | .error c => .error c
    | .ok st1 => runRows ticket batch_size st1 rest

/-- Outcome of one `download_and_process_gz` call, together with the batches
that were durably committed to the store along the way: a normal return
`(success, label)`, or an exception that none of its `except` clauses
catches and that propagates to the caller. -/
inductive GzOutcome where
  | ret (success : Bool) (label : Str) (commits : List (List FxTick))
  | crash (commits : List (List FxTick))
deriving DecidableEq, Repr

def GzOutcome.isSuccess : GzOutcome → Bool
  | .ret s _ _ => s
  | .crash _ => false

/-- `url_parts[-3]` of `url_parts = url_data.split("/")`: the ticket
embedded in a window URL. -/
def urlTicket (url_data : Str) : Str :=
  let parts := splitOnChar '/' url_data
  parts.getD (parts.length - 3) []

/-- The window label `this = f"{ticket}-{yr}-{wk}"` computed from the URL:
`url_parts = url_data.split("/")`, then
`ticket, yr, wk = url_parts[-3], url_parts[-2], url_parts[-1].split(".")[0]`. -/
def windowLabel (url_data : Str) : Str :=
  let parts := splitOnChar '/' url_data
  let yr := parts.getD (parts.length - 2) []
  let wk := (splitOnChar '.' (parts.getD (parts.length - 1) [])).headD []
  urlTicket url_data ++ '-' :: yr ++ '-' :: wk

/-- One line through `csv.reader(x.replace("\0", "") for x in file)`: strip
embedded NUL bytes, then split the unquoted line on commas; a line that is
empty after stripping yields the empty row `[]` (which `if row:` skips). -/
def csvRow (line : Str) : List Str :=
  let clean := line.filter (fun c => c ≠ '\x00')
  if clean = [] then [] else splitOnChar ',' clean

/-- Body rows through the loop plus the trailing
`if rows: session.add_all(rows); session.commit()`: the committed batches
of a window that completes without an uncaught exception. -/
def processBody (ticket : Str) (batch_size : Nat) (body : List (List Str)) :
    Except (List (List FxTick)) (List (List FxTick)) :=
  match runRows ticket batch_size LoopState.init body with
  | .error c => .error c
  | .ok st =>
    .ok (if st.rows = [] then st.commits else st.commits ++ [st.rows])

/-- `download_and_process_gz` (`src/downloader.py`, lines 38-123).  The
network is passed in as the oracle `net` mapping a URL to its HTTP outcome.
A `RequestException` from the fetch or a `BadGzipFile`/`csv.Error` from
decompression is caught and returns `(False, this)`; both happen before any
batch is written.  A URL with fewer than three `/`-separated parts raises
`IndexError` at the unpacking, an empty decompressed file makes
`next(reader)` raise `StopIteration`, and a first data row whose timestamp
matches no format raises `NameError` at `FxTick(dt=dt, ...)` — none of these
is caught by the `except` clauses, so they escape as `.crash`. -/
def download_and_process_gz (net : Str → HttpResponse) (url_data : Str)
    (batch_size : Nat := 10000) : GzOutcome :=
  let parts := splitOnChar '/' url_data
  if parts.length < 3 then .crash []
  else
    let ticket := urlTicket url_data
    let label := windowLabel url_data
    match net url_data with
    | .errStatus => .ret false label []
    | .errConn => .ret false label []
    | .errTimeout => .ret false label []
    | .ok .badGzip => .ret false label []
    | .ok (.valid lines) =>
      match lines with
      | [] => .crash []
      | _header :: bodyLines =>
        match processBody ticket batch_size (bodyLines.map csvRow) with
        | .error commits => .crash commits
        | .ok commits => .ret true label commits

/-- Reference extraction of the tick records the row loop emits, without
batching: the same per-row decisions as `rowTry`, collecting the records in
order.  Used to state what the batch writer must durably commit. -/
def extractTicks (ticket : Str) :
    Option PyDateTime → List (List Str) → List FxTick
  | _, [] => []
  | dt?, row :: rest =>
    if row = [] then extractTicks ticket dt? rest
    else
      match tryFormats dt? (row.headD []) with
      | none => extractTicks ticket none rest
      | some d =>
        match row.get? 1 with
        | none => extractTicks ticket (some d) rest
        | some bid =>
          match row.get? 2 with
          | none => extractTicks ticket (some d) rest
          | some ask =>
            ⟨d, bid, ask, ticket⟩ :: extractTicks ticket (some d) rest

def base_url : Str := "https://tickdata.fxcorporate.com".data

def url_suffix : Str := ".csv.gz".data

/-- The URL of week `i` of the run:
`new_date = d0 + timedelta(weeks=i); yr, wk, _ = new_date.isocalendar();`
`url_data = f"{base_url}/{ticket}/{yr}/{wk}{url_suffix}"`. -/
def week_url (ticket : Str) (d0 : Date) (i : Nat) : Str :=
  let new_date := d0.addDays (7 * i)
  let iso := new_date.isocalendar
  base_url ++ '/' :: ticket ++ '/' :: intToStr iso.1 ++
    '/' :: intToStr iso.2.1 ++ url_suffix

/-- The URLs of `for i in range(weeks)`: Python `range` of a negative count
is empty, which `Int.toNat` reproduces. -/
def genUrls (ticket : Str) (d0 d1 : Date) : List Str :=
  (List.range (weeks_between_dates d0 d1).toNat).map (week_url ticket d0)

/-- What one `download_tick_data` call did: its return value, the window
URLs handed to the executor (in dispatch order), and the executor outcome of
each dispatched window. -/
structure TickDataRun where
  result : Bool × Str
  dispatched : List Str
  outcomes : List GzOutcome
deriving DecidableEq, Repr

/-- The sequential branch of `download_tick_data`'s window loop plus the
code after it.  A window returning `(False, this)` aborts the loop with
`return False, result[1]`; an exception escaping the executor is caught by
the enclosing `except Exception` giving `(False, ticket)`.  When every
window succeeds, the loop falls through to
`logger.info(f"... {len(results)} files")` — but `results` is only assigned
in the `if multiprocess:` branch, so this raises `NameError`, which the same
`except Exception` turns into `(False, ticket)`. -/
def seqGo (net : Str → HttpResponse) (ticket : Str) :
    List Str → TickDataRun
  | [] => ⟨(false, ticket), [], []⟩
  | url :: rest =>
    match download_and_process_gz net url with
    | .crash c => ⟨(false, ticket), [url], [.crash c]⟩
    | .ret s lbl c =>
      if s then
        let t := seqGo net ticket rest
        ⟨t.result, url :: t.dispatched, .ret s lbl c :: t.outcomes⟩
      else ⟨(false, lbl), [url], [.ret s lbl c]⟩

/-- `download_tick_data` (`src/downloader.py`, lines 126-189).  The date
arguments are `Option`s because `downloader` passes its raw `end_date`
argument, which may be `None`: `weeks_between_dates` then raises `TypeError`
on `None - date`, and the blanket `except Exception` returns
`(False, ticket)` with no window dispatched.  In parallel mode every window
is handed to `pool.apply_async`, the pool is closed and joined, and the
function reaches `return True, ticket` regardless of the windows' outcomes
(the `AsyncResult`s are only counted, never inspected); the inter-request
`sleep(random.randint(1, 3))` pacing has no effect on the state modelled
here. -/
def download_tick_data (net : Str → HttpResponse) (ticket : Str)
    (d0? d1? : Option Date) (multiprocess : Bool) : TickDataRun :=
  match d0?, d1? with
  | some d0, some d1 =>
    let urls := genUrls ticket d0 d1
    if multiprocess then
      ⟨(true, ticket), urls, urls.map (fun u => download_and_process_gz net u)⟩
    else seqGo net ticket urls
  | _, _ => ⟨(false, ticket), [], []⟩

/-- `datetime.date(2019, 1, 1)`, the FXCM archive epoch used when
`start_date` is unspecified. -/
def archiveEpoch : Date := mkDate 2019 1 1

/-- `today.replace(day=1) - datetime.timedelta(days=1)`: the last calendar
day of the month preceding `today`. -/
def lastDayPrevMonth (today : Date) : Date :=
  today.replaceDay1.addDays (-1)

/-- `downloader` (`src/downloader.py`, lines 192-236).  The store is passed
in as the instrument catalog `instrumentsDb` and the tick table `ticksDb`,
the clock as `today`, the network as `net`.  When `end_date` is `None` the
source computes `date_to = today.replace(day=1) - timedelta(days=1)`, and
the (always-false, see `isinstance_datetime`) latest-tick branch would
reassign `date_to` — but `download_tick_data` is called with `d1=end_date`,
so `date_to` is never read and does not affect the runs; it is kept here as
a dead binding.  Returns the per-instrument `download_tick_data` runs in
order. -/
def downloader (net : Str → HttpResponse) (instrumentsDb : List Instrument)
    (ticksDb : List FxTick) (today : Date) (tickets : Option (List Str))
    (start_date end_date : Option Date) (multiprocess : Bool) :
    List (Str × TickDataRun) :=
  let start_date1 := start_date.getD archiveEpoch
  let _date_to : Option Date :=
    if end_date.isNone then some (lastDayPrevMonth today) else none
  let instruments := Instrument.get instrumentsDb tickets
  instruments.map (fun inst =>
    let latest_tick := FxTick.get_latest ticksDb inst.ticket
    let _date_to1 : Option Date :=
      if isinstance_datetime latest_tick then
        none
      else _date_to
    (inst.ticket,
      download_tick_data net inst.ticket (some start_date1) end_date
        multiprocess))

/-! ## Concrete fixtures used by witnesses and evidence theorems -/

/-- Network oracle for the C5 witness: week 18 of 2023 serves an archive
with only a header line (the window succeeds), every other URL gets a
non-2xx status. -/
def c5net : Str → HttpResponse := fun u =>
  if u = "https://tickdata.fxcorporate.com/EURUSD/2023/18.csv.gz".data then
    .ok (.valid ["DateTime,Bid,Ask".data])
  else .errStatus

/-- A weekly archive with a header line and five well-formed data rows. -/
def fiveRowPayload : GzPayload := .valid
  [ "DateTime,Bid,Ask".data,
    "05/01/2023 00:00:01.1,1.0,1.5".data,
    "05/01/2023 00:00:02.1,1.1,1.6".data,
    "05/01/2023 00:00:03.1,1.2,1.7".data,
    "05/01/2023 00:00:04.1,1.3,1.8".data,
    "05/01/2023 00:00:05.1,1.4,1.9".data ]

/-- The tick the `s`-th row of `fiveRowPayload` parses to. -/
def fiveRowTick (s : Nat) (b a : String) : FxTick :=
  ⟨⟨2023, 5, 1, 0, 0, s, 100000⟩, b.data, a.data, "EURUSD".data⟩

/-- A weekly archive whose second data row has three fields but a timestamp
matching neither accepted format. -/
def mixedPayload : GzPayload := .valid
  [ "DateTime,Bid,Ask".data,
    "05/01/2023 00:00:01.1,1.0,1.5".data,
    "BAD TIMESTAMP,2.0,2.5".data ]

/-- The catalog instrument used by the downloader evidence theorems. -/
def eurusdInst : Instrument := ⟨"EURUSD".data, true, false⟩

/-- A stored EURUSD tick dated 2023-05-10 12:00:00. -/
def storedTick : FxTick :=
  ⟨⟨2023, 5, 10, 12, 0, 0, 0⟩, "1.1".data, "1.2".data, "EURUSD".data⟩

/-! ## Claim theorems -/

/-- Python's `delta // 7` plus conditional increment computes the ceiling of
`delta / 7` for every sign of `delta`. -/
theorem weeks_ceil_aux (a : Int) :
    (if a % 7 ≠ 0 then a / 7 + 1 else a / 7) = ⌈(a : ℚ) / 7⌉ := by
  have h7 : (0 : ℚ) < 7 := by norm_num
  rw [eq_comm, Int.ceil_eq_iff, lt_div_iff₀ h7, div_le_iff₀ h7]
  by_cases h : a % 7 = 0
  · rw [if_neg (by simpa using h)]
    constructor
    · exact_mod_cast (by omega : ((a / 7 : Int) - 1) * 7 < a)
    · exact_mod_cast (by omega : a ≤ (a / 7 : Int) * 7)
  · rw [if_pos h]
    constructor
    · exact_mod_cast (by omega : ((a / 7 + 1 : Int) - 1) * 7 < a)
    · exact_mod_cast (by omega : a ≤ (a / 7 + 1 : Int) * 7)

/-- C6: for every pair of dates, `weeks_between_dates d0 d1` is the ceiling
of `(d1 - d0).days / 7`; in particular it is `0` from 2023-05-01 to
2023-05-01, `2` from 2023-05-01 to 2023-05-14, and `-4` from 2023-06-01 to
2023-05-01. -/
theorem c6_weeks_between_dates_ceil :
    (∀ d0 d1 : Date,
        weeks_between_dates d0 d1 =
          ⌈((d1.ordinal - d0.ordinal : Int) : ℚ) / 7⌉) ∧
    weeks_between_dates (mkDate 2023 5 1) (mkDate 2023 5 1) = 0 ∧
    weeks_between_dates (mkDate 2023 5 1) (mkDate 2023 5 14) = 2 ∧
    weeks_between_dates (mkDate 2023 6 1) (mkDate 2023 5 1) = -4 :=
  ⟨fun d0 d1 => weeks_ceil_aux (d1.ordinal - d0.ordinal),
   by decide, by decide, by decide⟩

/-- A non-positive week count generates no URLs. -/
theorem genUrls_nil (ticket : Str) (d0 d1 : Date)
    (h : d1.ordinal ≤ d0.ordinal) : genUrls ticket d0 d1 = [] := by
  have hw : (weeks_between_dates d0 d1).toNat = 0 := by
    unfold weeks_between_dates
    dsimp only
    split <;> omega
  unfold genUrls
  rw [hw]
  rfl

/-- C7: a call whose start date is on or after its end date (so the window
count is zero or negative) dispatches no window and attempts no fetch, in
either mode. -/
theorem c7_no_dispatch_when_start_ge_end (net : Str → HttpResponse)
    (ticket : Str) (d0 d1 : Date) (multiprocess : Bool)
    (h : d1.ordinal ≤ d0.ordinal) :
    (download_tick_data net ticket (some d0) (some d1)
        multiprocess).dispatched = [] ∧
    (download_tick_data net ticket (some d0) (some d1)
        multiprocess).outcomes = [] := by
  have hu := genUrls_nil ticket d0 d1 h
  cases multiprocess <;>
    simp [download_tick_data, hu, seqGo]

/-- Witness for C7 at 2023-06-01 → 2023-05-01. -/
theorem c7_no_dispatch_when_start_ge_end_witness :
    (mkDate 2023 5 1).ordinal ≤ (mkDate 2023 6 1).ordinal ∧
    ((download_tick_data (fun _ => HttpResponse.errStatus) ("EURUSD".data)
        (some (mkDate 2023 6 1)) (some (mkDate 2023 5 1))
        false).dispatched = [] ∧
     (download_tick_data (fun _ => HttpResponse.errStatus) ("EURUSD".data)
        (some (mkDate 2023 6 1)) (some (mkDate 2023 5 1))
        false).outcomes = []) :=
  ⟨by decide,
   c7_no_dispatch_when_start_ge_end (fun _ => HttpResponse.errStatus)
     ("EURUSD".data) (mkDate 2023 6 1) (mkDate 2023 5 1) false (by decide)⟩

/-- Every sequential `seqGo` run returns `False` as its success flag. -/
theorem seqGo_result_false (net : Str → HttpResponse) (ticket : Str) :
    ∀ urls : List Str, (seqGo net ticket urls).result.1 = false := by
  intro urls
  induction urls with
  | nil => rfl
  | cons u rest ih =>
    simp only [seqGo]
    cases hA : download_and_process_gz net u with
    | crash c => rfl
    | ret s lbl c =>
      cases s
      · rfl
      · simpa using ih

/-- C4: with `multiprocess=False` the success flag of the returned pair is
always `False` — the post-loop `len(results)` reads a name bound only in
parallel mode, and the resulting `NameError` is absorbed into
`(False, ticket)`; earlier exits already return `False`. -/
theorem c4_sequential_always_returns_false (net : Str → HttpResponse)
    (ticket : Str) (d0? d1? : Option Date) :
    (download_tick_data net ticket d0? d1? false).result.1 = false := by
  match d0?, d1? with
  | none, none => rfl
  | none, some d1 => rfl
  | some d0, none => rfl
  | some d0, some d1 =>
    simp only [download_tick_data, if_neg Bool.false_ne_true]
    exact seqGo_result_false net ticket _

/-- Sequential window loop: if every window before index `k` succeeds and
window `k` returns `(False, lbl)`, the loop dispatches exactly the first
`k + 1` windows and returns `(False, lbl)`. -/
theorem seqGo_fail_fast (net : Str → HttpResponse) (ticket : Str) :
    ∀ (urls : List Str) (k : Nat) (u lbl : Str) (c : List (List FxTick)),
      ((urls.take k).all
          fun v => (download_and_process_gz net v).isSuccess) = true →
      urls.get? k = some u →
      download_and_process_gz net u = .ret false lbl c →
      seqGo net ticket urls =
        ⟨(false, lbl), urls.take (k + 1),
         (urls.take (k + 1)).map
           fun v => download_and_process_gz net v⟩ := by
  intro urls
  induction urls with
  | nil =>
    intro k u lbl c _ hu _
    simp at hu
  | cons a rest ih =>
    intro k u lbl c hall hu hfail
    cases k with
    | zero =>
      have hua : a = u := by simpa using hu
      subst hua
      simp only [seqGo, hfail, List.take_succ_cons, List.take_zero,
        List.map_cons, List.map_nil]
      rfl
    | succ k1 =>
      have hrest : rest.get? k1 = some u := by simpa using hu
      have hall1 := hall
      rw [List.take_succ_cons, List.all_cons, Bool.and_eq_true] at hall1
      obtain ⟨ha, hallr⟩ := hall1
      cases hA : download_and_process_gz net a with
      | crash c1 =>
        rw [hA] at ha
        simp [GzOutcome.isSuccess] at ha
      | ret s lbl1 c1 =>
        have hs : s = true := by
          rw [hA] at ha
          simpa [GzOutcome.isSuccess] using ha
        subst hs
        simp only [seqGo, hA, if_pos]
        rw [ih k1 u lbl c hallr hrest hfail]
        simp [List.take_succ_cons, hA]

/-- C5: in sequential mode the first window that reports failure makes
`download_tick_data` return `(False, label)` immediately, dispatching only
the windows up to and including it; in parallel mode every window in the
range is dispatched and executed regardless of other windows' outcomes,
with the collected outcome list equal to the executor run on every window. -/
theorem c5_seq_fail_fast_par_dispatch_all :
    (∀ (net : Str → HttpResponse) (ticket : Str) (d0 d1 : Date) (k : Nat)
        (u lbl : Str) (c : List (List FxTick)),
      (((genUrls ticket d0 d1).take k).all
          fun v => (download_and_process_gz net v).isSuccess) = true →
      (genUrls ticket d0 d1).get? k = some u →
      download_and_process_gz net u = .ret false lbl c →
      download_tick_data net ticket (some d0) (some d1) false =
        ⟨(false, lbl), (genUrls ticket d0 d1).take (k + 1),
         ((genUrls ticket d0 d1).take (k + 1)).map
           fun v => download_and_process_gz net v⟩) ∧
    (∀ (net : Str → HttpResponse) (ticket : Str) (d0 d1 : Date),
      download_tick_data net ticket (some d0) (some d1) true =
        ⟨(true, ticket), genUrls ticket d0 d1,
         (genUrls ticket d0 d1).map
           fun v => download_and_process_gz net v⟩) :=
  ⟨fun net ticket d0 d1 k u lbl c hall hu hfail =>
     seqGo_fail_fast net ticket (genUrls ticket d0 d1) k u lbl c
       hall hu hfail,
   fun _ _ _ _ => rfl⟩

/-- Witness for C5: over 2023-05-01 → 2023-05-20 (weeks 18, 19, 20), the
second window fails, so the sequential run stops after two dispatches while
the parallel run dispatches all three. -/
theorem c5_seq_fail_fast_par_dispatch_all_witness :
    download_tick_data c5net ("EURUSD".data) (some (mkDate 2023 5 1))
        (some (mkDate 2023 5 20)) false =
      ⟨(false, "EURUSD-2023-19".data),
       (genUrls ("EURUSD".data) (mkDate 2023 5 1) (mkDate 2023 5 20)).take 2,
       ((genUrls ("EURUSD".data) (mkDate 2023 5 1)
           (mkDate 2023 5 20)).take 2).map
         fun v => download_and_process_gz c5net v⟩ ∧
    download_tick_data c5net ("EURUSD".data) (some (mkDate 2023 5 1))
        (some (mkDate 2023 5 20)) true =
      ⟨(true, "EURUSD".data),
       genUrls ("EURUSD".data) (mkDate 2023 5 1) (mkDate 2023 5 20),
       (genUrls ("EURUSD".data) (mkDate 2023 5 1) (mkDate 2023 5 20)).map
         fun v => download_and_process_gz c5net v⟩ :=
  ⟨c5_seq_fail_fast_par_dispatch_all.1 c5net ("EURUSD".data)
     (mkDate 2023 5 1) (mkDate 2023 5 20) 1
     ("https://tickdata.fxcorporate.com/EURUSD/2023/19.csv.gz".data)
     ("EURUSD-2023-19".data) [] (by decide) (by decide) (by decide),
   c5_seq_fail_fast_par_dispatch_all.2 c5net ("EURUSD".data)
     (mkDate 2023 5 1) (mkDate 2023 5 20)⟩

/-- C9: a window whose fetch raises — non-2xx status, connection failure or
timeout — returns `(False, this)` carrying the window label, with no batch
committed: the exception is raised before the row loop ever runs. -/
theorem c9_fetch_error_fails_window_no_commit (net : Str → HttpResponse)
    (url : Str) (B : Nat) (hparts : 3 ≤ (splitOnChar '/' url).length)
    (hnet : net url = .errStatus ∨ net url = .errConn ∨
      net url = .errTimeout) :
    download_and_process_gz net url B = .ret false (windowLabel url) [] := by
  unfold download_and_process_gz
  rw [if_neg (by omega)]
  rcases hnet with h | h | h <;> rw [h]

/-- Witness for C9 at the week-18 URL with a non-2xx response. -/
theorem c9_fetch_error_fails_window_no_commit_witness :
    3 ≤ (splitOnChar '/'
        ("https://tickdata.fxcorporate.com/EURUSD/2023/18.csv.gz".data)).length ∧
    download_and_process_gz (fun _ => HttpResponse.errStatus)
        ("https://tickdata.fxcorporate.com/EURUSD/2023/18.csv.gz".data) 10000 =
      .ret false
        (windowLabel
          ("https://tickdata.fxcorporate.com/EURUSD/2023/18.csv.gz".data)) [] :=
  ⟨by decide,
   c9_fetch_error_fails_window_no_commit (fun _ => HttpResponse.errStatus)
     ("https://tickdata.fxcorporate.com/EURUSD/2023/18.csv.gz".data) 10000
     (by decide) (Or.inl rfl)⟩

/-- Effect of one row attempt on the loop state, given no uncaught
exception: the row is either skipped (pending batch, count and commits
unchanged) or contributes exactly one tick, and `extractTicks` takes the
same decision. -/
theorem rowTry_ok_cases (ticket : Str) (st : LoopState) (row : List Str)
    (st0 : LoopState) (rest : List (List Str))
    (h : rowTry ticket st row = .ok st0) :
    st0.commits = st.commits ∧
    ((st0.rows = st.rows ∧ st0.count = st.count ∧
        extractTicks ticket st.dt? (row :: rest) =
          extractTicks ticket st0.dt? rest) ∨
     (∃ t : FxTick, st0.rows = st.rows ++ [t] ∧ st0.count = st.count + 1 ∧
        extractTicks ticket st.dt? (row :: rest) =
          t :: extractTicks ticket st0.dt? rest)) := by
  unfold rowTry at h
  by_cases hr : row = []
  · rw [if_pos hr] at h
    injection h with h
    subst h
    subst hr
    exact ⟨rfl, Or.inl ⟨rfl, rfl, by simp [extractTicks]⟩⟩
  · rw [if_neg hr] at h
    cases hdt : tryFormats st.dt? (row.headD []) with
    | none => rw [hdt] at h; cases h
    | some d =>
      rw [hdt] at h
      cases h1 : row.get? 1 with
      | none =>
        rw [h1] at h
        injection h with h
        subst h
        exact ⟨rfl, Or.inl ⟨rfl, rfl, by
          simp only [extractTicks, if_neg hr, hdt, h1]⟩⟩
      | some bid =>
        rw [h1] at h
        cases h2 : row.get? 2 with
        | none =>
          rw [h2] at h
          injection h with h
          subst h
          exact ⟨rfl, Or.inl ⟨rfl, rfl, by
            simp only [extractTicks, if_neg hr, hdt, h1, h2]⟩⟩
        | some ask =>
          rw [h2] at h
          injection h with h
          subst h
          exact ⟨rfl, Or.inr ⟨⟨d, bid, ask, ticket⟩, rfl, rfl, by
            simp only [extractTicks, if_neg hr, hdt, h1, h2]⟩⟩

/-- Incrementing a counter either completes a batch (`count % B` wraps to
`0`) or advances the remainder by one. -/
theorem mod_succ_cases (a B : Nat) (hB : 0 < B) :
    (a % B + 1 = B ∧ (a + 1) % B = 0) ∨
    (a % B + 1 < B ∧ (a + 1) % B = a % B + 1) := by
  have hr : a % B < B := Nat.mod_lt _ hB
  have key : (a + 1) % B = (a % B + 1) % B := by
    rw [Nat.add_mod a 1 B, Nat.add_mod (a % B) 1 B,
      Nat.mod_mod_of_dvd _ dvd_rfl]
  rcases Nat.lt_or_ge (a % B + 1) B with h | h
  · right
    exact ⟨h, by rw [key, Nat.mod_eq_of_lt h]⟩
  · left
    have heq : a % B + 1 = B := by omega
    exact ⟨heq, by rw [key, heq, Nat.mod_self]⟩

/-- Loop invariant of the batch writer: starting from a state whose pending
batch holds exactly `count % B` records, a run that completes without an
uncaught exception appends only batches that are empty or hold exactly `B`
records, loses no parsed record, and re-establishes the invariant. -/
theorem runRows_spec (ticket : Str) (B : Nat) (hB : 0 < B) :
    ∀ (body : List (List Str)) (st st' : LoopState),
      st.rows.length = st.count % B →
      runRows ticket B st body = .ok st' →
      ∃ bs : List (List FxTick),
        st'.commits = st.commits ++ bs ∧
        (∀ b ∈ bs, b = [] ∨ b.length = B) ∧
        bs.flatten ++ st'.rows = st.rows ++ extractTicks ticket st.dt? body ∧
        st'.rows.length = st'.count % B := by
  intro body
  induction body with
  | nil =>
    intro st st' hinv hrun
    simp only [runRows] at hrun
    injection hrun with h
    subst h
    exact ⟨[], by simp, by simp, by simp [extractTicks], hinv⟩
  | cons row rest ih =>
    intro st st' hinv hrun
    simp only [runRows] at hrun
    cases hpr : processRow ticket B st row with
    | error c => rw [hpr] at hrun; cases hrun
    | ok st1 =>
      rw [hpr] at hrun
      unfold processRow at hpr
      cases hrt : rowTry ticket st row with
      | error c => rw [hrt] at hpr; cases hpr
      | ok st0 =>
        rw [hrt] at hpr
        have hst1 : st1 = batchCheck B st0 := by
          have := hpr
          simp only [Except.map] at this
          injection this with h
          exact h.symm
        obtain ⟨hcomm0, hcases⟩ := rowTry_ok_cases ticket st row st0 rest hrt
        by_cases hc : st0.count % B = 0
        · have hb1 : st1 =
              { st0 with commits := st0.commits ++ [st0.rows], rows := [] } := by
            rw [hst1]
            unfold batchCheck
            rw [if_pos hc]
          have hinv1 : st1.rows.length = st1.count % B := by
            rw [hb1]
            simpa using hc.symm
          obtain ⟨bs', h1', h2', h3', h4'⟩ := ih st1 st' hinv1 hrun
          have hbatch : st0.rows = [] ∨ st0.rows.length = B := by
            rcases hcases with ⟨hrows, hcount, _⟩ | ⟨t, hrows, hcount, _⟩
            · left
              have : st0.rows.length = 0 := by
                rw [hrows, hinv, ← hcount]
                exact hc
              exact List.length_eq_zero.mp this
            · right
              have hlen : st0.rows.length = st.rows.length + 1 := by
                rw [hrows]
                simp
              rw [hcount] at hc
              rcases mod_succ_cases st.count B hB with ⟨h5, h6⟩ | ⟨h5, h6⟩ <;>
                omega
          refine ⟨st0.rows :: bs', ?_, ?_, ?_, h4'⟩
          · rw [h1', hb1]
            simp [hcomm0]
          · intro b hb
            rcases List.mem_cons.mp hb with hb | hb
            · subst hb
              exact hbatch
            · exact h2' b hb
          · have h3'' : bs'.flatten ++ st'.rows =
                extractTicks ticket st0.dt? rest := by
              rw [h3', hb1]
              simp
            rcases hcases with ⟨hrows, _, hext⟩ | ⟨t, hrows, _, hext⟩
            · rw [List.flatten_cons, List.append_assoc, h3'', hext, hrows]
            · rw [List.flatten_cons, List.append_assoc, h3'', hext, hrows]
              simp
        · have hb1 : st1 = st0 := by
            rw [hst1]
            unfold batchCheck
            rw [if_neg hc]
          have hinv1 : st1.rows.length = st1.count % B := by
            rcases hcases with ⟨hrows, hcount, _⟩ | ⟨t, hrows, hcount, _⟩
            · rw [hb1, hrows, hcount, hinv]
            · rw [hb1, hrows, hcount]
              simp only [List.length_append, List.length_singleton]
              rw [hcount] at hc
              rcases mod_succ_cases st.count B hB with ⟨h5, h6⟩ | ⟨h5, h6⟩ <;>
                omega
          obtain ⟨bs', h1', h2', h3', h4'⟩ := ih st1 st' hinv1 hrun
          refine ⟨bs', ?_, h2', ?_, h4'⟩
          · rw [h1', hb1, hcomm0]
          · have h3'' : bs'.flatten ++ st'.rows =
                st0.rows ++ extractTicks ticket st0.dt? rest := by
              rw [h3', hb1]
            rcases hcases with ⟨hrows, _, hext⟩ | ⟨t, hrows, _, hext⟩
            · rw [h3'', hext, hrows]
            · rw [h3'', hext, hrows]
              simp

/-- The committed batches of a window whose row loop completes without an
uncaught exception: every batch before the final flush is full or an empty
no-op commit, the final flush holds at most a full batch, and their
concatenation is exactly the parsed record stream. -/
theorem processBody_spec (ticket : Str) (B : Nat) (hB : 0 < B)
    (body : List (List Str)) (commits : List (List FxTick))
    (h : processBody ticket B body = .ok commits) :
    commits.flatten = extractTicks ticket none body ∧
    (∀ b ∈ commits.dropLast, b = [] ∨ b.length = B) ∧
    (∀ b ∈ commits, b.length ≤ B) := by
  unfold processBody at h
  cases hrr : runRows ticket B LoopState.init body with
  | error c => rw [hrr] at h; cases h
  | ok st =>
    rw [hrr] at h
    injection h with h
    subst h
    obtain ⟨bs, h1, h2, h3, h4⟩ :=
      runRows_spec ticket B hB body LoopState.init st (by rfl) hrr
    simp only [LoopState.init] at h1 h3
    rw [List.nil_append] at h1 h3
    have hrem : st.rows.length < B := by
      rw [h4]
      exact Nat.mod_lt _ hB
    by_cases hz : st.rows = []
    · rw [if_pos hz]
      subst h1
      refine ⟨?_, ?_, ?_⟩
      · rw [hz, List.append_nil] at h3
        exact h3
      · intro b hb
        exact h2 b (List.dropLast_subset _ hb)
      · intro b hb
        rcases h2 b hb with hb1 | hb1
        · simp [hb1]
        · omega
    · rw [if_neg hz]
      subst h1
      refine ⟨?_, ?_, ?_⟩
      · rw [List.flatten_append, List.flatten_cons, List.flatten_nil,
          List.append_nil]
        exact h3
      · intro b hb
        rw [List.dropLast_concat] at hb
        exact h2 b hb
      · intro b hb
        rcases List.mem_append.mp hb with hb1 | hb1
        · rcases h2 b hb1 with hb2 | hb2
          · simp [hb2]
          · omega
        · have : b = st.rows := by simpa using hb1
          subst this
          omega

/-- C8: the batch writer commits a batch each time `B` records have
accumulated since the previous commit (every non-final flush is a full batch
of `B` records — or an empty no-op commit fired while the count sat at a
multiple of `B`), unconditionally flushes the remainder at end of stream so
that the concatenation of all batches is exactly the parsed record stream,
and with batch size 2 and five parsed records produces two full flushes of
two records followed by a final flush of one. -/
theorem c8_batch_writer_flushes :
    (∀ (net : Str → HttpResponse) (url : Str) (B : Nat) (hdr : Str)
        (body : List Str) (s : Bool) (lbl : Str)
        (commits : List (List FxTick)),
      0 < B →
      net url = .ok (.valid (hdr :: body)) →
      download_and_process_gz net url B = .ret s lbl commits →
      commits.flatten = extractTicks (urlTicket url) none (body.map csvRow) ∧
      (∀ b ∈ commits.dropLast, b = [] ∨ b.length = B) ∧
      (∀ b ∈ commits, b.length ≤ B)) ∧
    download_and_process_gz (fun _ => .ok fiveRowPayload)
        ("https://tickdata.fxcorporate.com/EURUSD/2023/18.csv.gz".data) 2 =
      .ret true ("EURUSD-2023-18".data)
        [[fiveRowTick 1 "1.0" "1.5", fiveRowTick 2 "1.1" "1.6"],
         [fiveRowTick 3 "1.2" "1.7", fiveRowTick 4 "1.3" "1.8"],
         [fiveRowTick 5 "1.4" "1.9"]] := by
  constructor
  · intro net url B hdr body s lbl commits hB hnet hrun
    unfold download_and_process_gz at hrun
    by_cases hp : (splitOnChar '/' url).length < 3
    · rw [if_pos hp] at hrun
      cases hrun
    · rw [if_neg hp] at hrun
      rw [hnet] at hrun
      dsimp only at hrun
      cases hpb : processBody (urlTicket url) B (body.map csvRow) with
      | error c =>
        rw [hpb] at hrun
        cases hrun
      | ok cs =>
        rw [hpb] at hrun
        injection hrun with hs hl hc
        subst hc
        exact processBody_spec (urlTicket url) B hB (body.map csvRow)
          cs hpb
  · decide

/-- Witness for C8 at the five-row window with batch size 2. -/
theorem c8_batch_writer_flushes_witness :
    ([[fiveRowTick 1 "1.0" "1.5", fiveRowTick 2 "1.1" "1.6"],
      [fiveRowTick 3 "1.2" "1.7", fiveRowTick 4 "1.3" "1.8"],
      [fiveRowTick 5 "1.4" "1.9"]] : List (List FxTick)).flatten =
      extractTicks
        (urlTicket
          ("https://tickdata.fxcorporate.com/EURUSD/2023/18.csv.gz".data))
        none
        (List.map csvRow
          ["05/01/2023 00:00:01.1,1.0,1.5".data,
           "05/01/2023 00:00:02.1,1.1,1.6".data,
           "05/01/2023 00:00:03.1,1.2,1.7".data,
           "05/01/2023 00:00:04.1,1.3,1.8".data,
           "05/01/2023 00:00:05.1,1.4,1.9".data]) ∧
    (∀ b ∈ ([[fiveRowTick 1 "1.0" "1.5", fiveRowTick 2 "1.1" "1.6"],
      [fiveRowTick 3 "1.2" "1.7", fiveRowTick 4 "1.3" "1.8"],
      [fiveRowTick 5 "1.4" "1.9"]] : List (List FxTick)).dropLast,
        b = [] ∨ b.length = 2) ∧
    (∀ b ∈ ([[fiveRowTick 1 "1.0" "1.5", fiveRowTick 2 "1.1" "1.6"],
      [fiveRowTick 3 "1.2" "1.7", fiveRowTick 4 "1.3" "1.8"],
      [fiveRowTick 5 "1.4" "1.9"]] : List (List FxTick)), b.length ≤ 2) :=
  c8_batch_writer_flushes.1 (fun _ => .ok fiveRowPayload)
    ("https://tickdata.fxcorporate.com/EURUSD/2023/18.csv.gz".data) 2
    ("DateTime,Bid,Ask".data)
    ["05/01/2023 00:00:01.1,1.0,1.5".data,
     "05/01/2023 00:00:02.1,1.1,1.6".data,
     "05/01/2023 00:00:03.1,1.2,1.7".data,
     "05/01/2023 00:00:04.1,1.3,1.8".data,
     "05/01/2023 00:00:05.1,1.4,1.9".data] true ("EURUSD-2023-18".data)
    [[fiveRowTick 1 "1.0" "1.5", fiveRowTick 2 "1.1" "1.6"],
     [fiveRowTick 3 "1.2" "1.7", fiveRowTick 4 "1.3" "1.8"],
     [fiveRowTick 5 "1.4" "1.9"]]
    (by decide) (by decide) (by decide)

/-- C10: a data row with at least three fields whose timestamp matches
neither accepted format is not skipped when an earlier row in the window
parsed successfully: the `for fmt in datetime_fmts` loop leaves the previous
value of `dt` in place, so a tick is emitted carrying the row's own bid and
ask but the timestamp of the most recent successfully parsed row.  The
hypothesis `hascii` restricts the quantification to ASCII timestamp fields
(the archives are ASCII CSV): on that domain the model's `strptime` agrees
exactly with CPython's — `%Y` exactly four digits, the format's space a
nonempty whitespace run, whole-string match, calendar validation — so
`h1`/`h2` coincide with "both `datetime.strptime` calls raise `ValueError`"
in the program. -/
theorem c10_stale_timestamp_emitted (ticket : Str) (st : LoopState)
    (d : PyDateTime) (r0 bid ask : Str) (rest : List Str)
    (hascii : r0.all (fun c => c.toNat < 128) = true)
    (hdt : st.dt? = some d)
    (h1 : strptime r0 .slashFmt = none)
    (h2 : strptime r0 .dashFmt = none) :
    rowTry ticket st (r0 :: bid :: ask :: rest) =
      .ok { st with
            dt? := some d
            rows := st.rows ++ [⟨d, bid, ask, ticket⟩]
            count := st.count + 1 } := by
  have htf : tryFormats st.dt? r0 = some d := by
    simp [tryFormats, datetime_fmts, h1, h2, hdt]
  unfold rowTry
  rw [if_neg (List.cons_ne_nil _ _)]
  simp only [List.headD_cons, htf]
  rfl

/-- Witness for C10: after a successfully parsed first row, the row
`"BAD TIMESTAMP","2.0","2.5"` emits a tick with the first row's timestamp
and its own prices. -/
theorem c10_stale_timestamp_emitted_witness :
    rowTry ("EURUSD".data)
        ⟨some ⟨2023, 5, 1, 0, 0, 1, 100000⟩, [], 1, []⟩
        ("BAD TIMESTAMP".data :: "2.0".data :: "2.5".data :: []) =
      .ok ⟨some ⟨2023, 5, 1, 0, 0, 1, 100000⟩,
           [] ++ [⟨⟨2023, 5, 1, 0, 0, 1, 100000⟩, "2.0".data, "2.5".data,
             "EURUSD".data⟩],
           1 + 1, []⟩ :=
  c10_stale_timestamp_emitted ("EURUSD".data)
    ⟨some ⟨2023, 5, 1, 0, 0, 1, 100000⟩, [], 1, []⟩
    ⟨2023, 5, 1, 0, 0, 1, 100000⟩ ("BAD TIMESTAMP".data) ("2.0".data)
    ("2.5".data) [] (by decide) rfl (by decide) (by decide)

/-- C1 — evidence for the code bug: `FxTick.get_latest` returns an `FxTick`
row (never a `datetime.datetime`), so the `isinstance` branch in
`downloader` never fires, and even its body assigns `date_to`, which is not
what `download_tick_data` receives.  With a stored latest tick dated
2023-05-10 and an explicit range 2023-05-01 → 2023-05-20, the first window
dispatched is week 18 of 2023 — the week starting 2023-05-01, lying entirely
on or before 2023-05-10 — rather than the first window after 2023-05-11. -/
theorem c1_incremental_resume_not_applied :
    FxTick.get_latest [storedTick] ("EURUSD".data) = some storedTick ∧
    isinstance_datetime (FxTick.get_latest [storedTick] ("EURUSD".data)) =
      false ∧
    downloader (fun _ => .errStatus) [eurusdInst] [storedTick]
        (mkDate 2023 6 15) (some ["eurusd".data]) (some (mkDate 2023 5 1))
        (some (mkDate 2023 5 20)) false =
      [("EURUSD".data,
        ⟨(false, "EURUSD-2023-18".data),
         ["https://tickdata.fxcorporate.com/EURUSD/2023/18.csv.gz".data],
         [.ret false ("EURUSD-2023-18".data) []]⟩)] ∧
    ((mkDate 2023 5 1).addDays 6).ordinal < storedTick.dt.dateOf.ordinal :=
  ⟨by decide, by decide, by decide, by decide⟩

/-- C2 — evidence for the code bug: a three-field row whose timestamp
matches neither format is not skipped; it is emitted into the committed
batch with the previous row's timestamp and its own prices (and a
non-numeric bid or ask is stored as-is in the `String` columns, raising no
`ValueError`). -/
theorem c2_malformed_row_not_skipped :
    strptime ("BAD TIMESTAMP".data) .slashFmt = none ∧
    strptime ("BAD TIMESTAMP".data) .dashFmt = none ∧
    download_and_process_gz (fun _ => .ok mixedPayload)
        ("https://tickdata.fxcorporate.com/EURUSD/2023/18.csv.gz".data)
        10000 =
      .ret true ("EURUSD-2023-18".data)
        [[⟨⟨2023, 5, 1, 0, 0, 1, 100000⟩, "1.0".data, "1.5".data,
            "EURUSD".data⟩,
          ⟨⟨2023, 5, 1, 0, 0, 1, 100000⟩, "2.0".data, "2.5".data,
            "EURUSD".data⟩]] :=
  ⟨by decide, by decide, by decide⟩

/-- C3 — evidence for the code bug: with `end_date=None`, `downloader`
computes `date_to` (the last day of the previous month) but passes
`d1=end_date`, i.e. `None`, to `download_tick_data`; the `None - date`
`TypeError` is absorbed into `(False, ticket)` and no window is dispatched,
although the claimed effective end date (2023-04-30 for a run on
2023-05-15) would have produced 17 windows from 2023-01-01. -/
theorem c3_none_end_date_fails_without_dispatch :
    downloader (fun _ => .errStatus) [eurusdInst] [] (mkDate 2023 5 15)
        (some ["EURUSD".data]) (some (mkDate 2023 1 1)) none false =
      [("EURUSD".data, ⟨(false, "EURUSD".data), [], []⟩)] ∧
    lastDayPrevMonth (mkDate 2023 5 15) = mkDate 2023 4 30 ∧
    weeks_between_dates (mkDate 2023 1 1) (mkDate 2023 4 30) = 17 :=
  ⟨by decide, by decide, by decide⟩

